import Mathlib

/-!
Shallow embedding of the "AlgoRhythm" client-side authentication controller
(`src/script.js`, which contains two successive `AuthManager` classes, and
`src/script-merged.js`, a third variant).  JavaScript strings are embedded as
`List Char`; values read from form data that may be `undefined` are embedded
as `Option (List Char)`.  DOM error slots are embedded as a record of the
named error elements the validators write to.
-/

/-- Turn a Lean string literal into the `List Char` embedding of a JS string. -/
def str (s : String) : List Char := s.toList

/-- JS truthiness of a possibly-`undefined` string: `undefined` and `""` are falsy. -/
def truthy : Option (List Char) → Bool
  | none => false
  | some l => !l.isEmpty

/-- JS `ToString` coercion applied to a possibly-`undefined` string
(`String(undefined) = "undefined"`), as performed by `RegExp.test`. -/
def jsToString : Option (List Char) → List Char
  | none => str "undefined"
  | some l => l

/-- The ECMAScript `\s` character class (WhiteSpace ∪ LineTerminator),
also the set removed by `String.prototype.trim`. -/
def isSpaceJS (c : Char) : Bool :=
  c.toNat = 9 || c.toNat = 10 || c.toNat = 11 || c.toNat = 12 || c.toNat = 13 ||
  c.toNat = 32 || c.toNat = 0xa0 || c.toNat = 0x1680 ||
  (0x2000 ≤ c.toNat && c.toNat ≤ 0x200a) ||
  c.toNat = 0x2028 || c.toNat = 0x2029 || c.toNat = 0x202f ||
  c.toNat = 0x205f || c.toNat = 0x3000 || c.toNat = 0xfeff

/-- JS `String.prototype.trim`: strip `isSpaceJS` characters from both ends. -/
def trimJS (l : List Char) : List Char :=
  ((l.dropWhile isSpaceJS).reverse.dropWhile isSpaceJS).reverse

/-- The regex character class `[a-z]`. -/
def isLowerAlpha (c : Char) : Bool := 'a' ≤ c && c ≤ 'z'

/-- The regex character class `[A-Z]`. -/
def isUpperAlpha (c : Char) : Bool := 'A' ≤ c && c ≤ 'Z'

/-- The regex character classes `[0-9]` and `\d`. -/
def isDigitCh (c : Char) : Bool := '0' ≤ c && c ≤ '9'

/-- The regex character class `[^A-Za-z0-9]` ("symbol" in the strength scorer). -/
def isSymbolCh (c : Char) : Bool := !(isLowerAlpha c || isUpperAlpha c || isDigitCh c)

/-- Two characters belong to the same class among
{lowercase, uppercase, digit, symbol}. -/
def sameClass (a b : Char) : Bool :=
  (isLowerAlpha a && isLowerAlpha b) || (isUpperAlpha a && isUpperAlpha b) ||
  (isDigitCh a && isDigitCh b) || (isSymbolCh a && isSymbolCh b)

/-- ASCII case folding used by a case-insensitive regex over the
ASCII patterns appearing in the source (`/.../i`). -/
def lowerChar (c : Char) : Char :=
  if 'A' ≤ c && c ≤ 'Z' then Char.ofNat (c.toNat + 32) else c

/-- A character admissible in every piece of the email pattern: `[^\s@]`. -/
def okEmailChar (c : Char) : Bool := !isSpaceJS c && c != '@'

/-- Split a JS string at its first `'@'`:
`some (before, after)` when an `'@'` occurs, `none` otherwise. -/
def splitAtFirstAt : List Char → Option (List Char × List Char)
  | [] => none
  | c :: rest =>
    if c = '@' then some ([], rest)
    else (splitAtFirstAt rest).map (fun p => (c :: p.1, p.2))

/-- `true` iff some `'.'` occurs before the last position of the list
(i.e. with at least one character strictly after it). -/
def dotBeforeEnd : List Char → Bool
  | [] => false
  | [_] => false
  | c :: rest => c = '.' || dotBeforeEnd rest

/-- `isValidEmail` (all three variants, `src/script.js` lines 620-623 /
1711-1714, `src/script-merged.js` lines 361-364): test of the anchored regex
`^[^\s@]+@[^\s@]+\.[^\s@]+$`.  Implemented by splitting at the first `'@'`;
`isValidEmail_iff_matches` below proves this equal to the declarative
semantics of the pattern. -/
def isValidEmail (s : List Char) : Bool :=
  match splitAtFirstAt s with
  | none => false
  | some (a, r) =>
    !a.isEmpty && a.all okEmailChar && r.all okEmailChar &&
    (match r with
     | [] => false
     | _ :: rest => dotBeforeEnd rest)

/-- Declarative semantics of the anchored regex `^[^\s@]+@[^\s@]+\.[^\s@]+$`:
the string decomposes as `a ++ "@" ++ b ++ "." ++ c` with `a`, `b`, `c`
nonempty sequences of characters that are neither whitespace nor `'@'`. -/
def EmailMatches (s : List Char) : Prop :=
  ∃ a b c : List Char,
    a ≠ [] ∧ b ≠ [] ∧ c ≠ [] ∧
    (∀ x ∈ a, okEmailChar x = true) ∧
    (∀ x ∈ b, okEmailChar x = true) ∧
    (∀ x ∈ c, okEmailChar x = true) ∧
    s = a ++ '@' :: (b ++ '.' :: c)

/-- The result record `{isValid, message}` returned by `validatePassword`
(`message` is absent on success). -/
structure PasswordValidation where
  isValid : Bool
  message : Option (List Char)
deriving DecidableEq, Repr

namespace ScriptJS

/-- `validatePassword` (`src/script.js` lines 604-618): empty → required;
length < 8 → minimum length; missing one of lowercase/uppercase/digit
(the regex `(?=.*[a-z])(?=.*[A-Z])(?=.*\d)`) → complexity; else valid. -/
def validatePassword (password : Option (List Char)) : PasswordValidation :=
  if !truthy password then
    ⟨false, some (str "Password is required")⟩
  else
    let p := jsToString password
    if p.length < 8 then
      ⟨false, some (str "Password must be at least 8 characters long")⟩
    else if !(p.any isLowerAlpha && p.any isUpperAlpha && p.any isDigitCh) then
      ⟨false, some (str "Password must contain uppercase, lowercase, and number")⟩
    else
      ⟨true, none⟩

end ScriptJS

namespace MergedJS

/-- `validatePassword` (`src/script-merged.js` lines 349-359): empty →
required; length < 8 → minimum length; else valid.  This variant has no
character-complexity check. -/
def validatePassword (password : Option (List Char)) : PasswordValidation :=
  if !truthy password then
    ⟨false, some (str "Password is required")⟩
  else
    let p := jsToString password
    if p.length < 8 then
      ⟨false, some (str "Password must be at least 8 characters long")⟩
    else
      ⟨true, none⟩

end MergedJS

/-- One entry of the `levels` array in `calculatePasswordStrength`. -/
structure StrengthLevel where
  min : Nat
  max : Nat
  level : List Char
  text : List Char
deriving DecidableEq, Repr

/-- The `levels` array shared verbatim by all three variants of
`calculatePasswordStrength`. -/
def strengthLevels : List StrengthLevel :=
  [⟨0, 2, str "weak", str "Weak password"⟩,
   ⟨3, 4, str "fair", str "Fair password"⟩,
   ⟨5, 6, str "good", str "Good password"⟩,
   ⟨7, 8, str "strong", str "Strong password"⟩]

/-- `levels.find(level => score >= level.min && score <= level.max) || levels[0]`:
first level whose inclusive range contains the score, defaulting to the
first (weak) level. -/
def levelFor (score : Nat) : StrengthLevel :=
  (strengthLevels.find? (fun l => l.min ≤ score && score ≤ l.max)).getD
    ⟨0, 2, str "weak", str "Weak password"⟩

/-- Rank of a band name under the ordering weak < fair < good < strong. -/
def bandRank (level : List Char) : Nat :=
  if level = str "weak" then 0
  else if level = str "fair" then 1
  else if level = str "good" then 2
  else if level = str "strong" then 3
  else 0

namespace ScriptJS

/-- The additive score of `calculatePasswordStrength`
(`src/script.js` lines 584-602, identically `src/script-merged.js`
lines 329-347): one point per satisfied check. -/
def passwordScore (password : List Char) : Nat :=
  (if password.length ≥ 8 then 1 else 0) +
  (if password.length ≥ 12 then 1 else 0) +
  (if password.any isLowerAlpha then 1 else 0) +
  (if password.any isUpperAlpha then 1 else 0) +
  (if password.any isDigitCh then 1 else 0) +
  (if password.any isSymbolCh then 1 else 0)

/-- `calculatePasswordStrength` (`src/script.js` lines 584-602): six-check
score mapped through the `levels` array. -/
def calculatePasswordStrength (password : List Char) : StrengthLevel :=
  levelFor (passwordScore password)

end ScriptJS

/-- The regex `/(.)\1{2,}/`: some character occurs at least three times
consecutively. -/
def hasTriple : List Char → Bool
  | a :: b :: c :: rest => (a == b && b == c) || hasTriple (b :: c :: rest)
  | _ => false

/-- The 24 three-letter ascending runs of the alternation
`abc|bcd|...|xyz` in the sequential-letter regex. -/
def seqRuns : List (List Char) :=
  [str "abc", str "bcd", str "cde", str "def", str "efg", str "fgh",
   str "ghi", str "hij", str "ijk", str "jkl", str "klm", str "lmn",
   str "mno", str "nop", str "opq", str "pqr", str "qrs", str "rst",
   str "stu", str "tuv", str "uvw", str "vwx", str "wxy", str "xyz"]

/-- `startsWithRun pat l`: `pat` is a prefix of `l`. -/
def startsWithRun : List Char → List Char → Bool
  | [], _ => true
  | _ :: _, [] => false
  | a :: pat, b :: l => a == b && startsWithRun pat l

/-- `containsRun pat l`: `pat` occurs in `l` as a contiguous substring. -/
def containsRun (pat : List Char) : List Char → Bool
  | [] => pat.isEmpty
  | c :: rest => startsWithRun pat (c :: rest) || containsRun pat rest

/-- The regex `/(?:abc|bcd|...|xyz)/i`: the case-folded string contains one
of the 24 ascending three-letter runs as a contiguous substring. -/
def hasSeqRun (password : List Char) : Bool :=
  seqRuns.any (fun r => containsRun r (password.map lowerChar))

namespace ScriptJSv2

/-- The additive score of the richer `calculatePasswordStrength`
(`src/script.js` lines 1668-1693): the six checks plus two pattern
bonuses (no 3+ repeated characters, no sequential-letter run). -/
def passwordScore (password : List Char) : Nat :=
  (if password.length ≥ 8 then 1 else 0) +
  (if password.length ≥ 12 then 1 else 0) +
  (if password.any isLowerAlpha then 1 else 0) +
  (if password.any isUpperAlpha then 1 else 0) +
  (if password.any isDigitCh then 1 else 0) +
  (if password.any isSymbolCh then 1 else 0) +
  (if !hasTriple password then 1 else 0) +
  (if !hasSeqRun password then 1 else 0)

/-- `calculatePasswordStrength` (`src/script.js` lines 1668-1693):
eight-check score mapped through the same `levels` array. -/
def calculatePasswordStrength (password : List Char) : StrengthLevel :=
  levelFor (passwordScore password)

end ScriptJSv2

/-- Identifiers of the DOM error slots the validators write to
(`showFieldError` / `clearFieldError` element ids). -/
inductive SlotId where
  | nameError
  | registerEmailError
  | registerPasswordError
  | confirmPasswordError
  | emailError
  | passwordError
deriving DecidableEq, Repr

/-- The text content of each named error slot. -/
structure ErrorSlots where
  nameError : List Char
  registerEmailError : List Char
  registerPasswordError : List Char
  confirmPasswordError : List Char
  emailError : List Char
  passwordError : List Char
deriving DecidableEq, Repr

/-- Replace the content of one slot. -/
def setSlot (st : ErrorSlots) (id : SlotId) (msg : List Char) : ErrorSlots :=
  match id with
  | .nameError => { st with nameError := msg }
  | .registerEmailError => { st with registerEmailError := msg }
  | .registerPasswordError => { st with registerPasswordError := msg }
  | .confirmPasswordError => { st with confirmPasswordError := msg }
  | .emailError => { st with emailError := msg }
  | .passwordError => { st with passwordError := msg }

/-- Read the content of one slot. -/
def getSlot (st : ErrorSlots) (id : SlotId) : List Char :=
  match id with
  | .nameError => st.nameError
  | .registerEmailError => st.registerEmailError
  | .registerPasswordError => st.registerPasswordError
  | .confirmPasswordError => st.confirmPasswordError
  | .emailError => st.emailError
  | .passwordError => st.passwordError

/-- `showFieldError(elementId, message)`: set the slot's text content to
the message. -/
def showFieldError (st : ErrorSlots) (id : SlotId) (msg : List Char) : ErrorSlots :=
  setSlot st id msg

/-- `clearFieldError(elementId)`: set the slot's text content to `''`. -/
def clearFieldError (st : ErrorSlots) (id : SlotId) : ErrorSlots :=
  setSlot st id []

/-- The fields destructured from the login form's `FormData`
(`undefined` when the input is absent). -/
structure Credentials where
  email : Option (List Char)
  password : Option (List Char)
deriving DecidableEq, Repr

/-- The fields destructured from the registration form's `FormData`. -/
structure UserData where
  name : Option (List Char)
  email : Option (List Char)
  password : Option (List Char)
  confirmPassword : Option (List Char)
deriving DecidableEq, Repr

namespace ScriptJS

/-- `validateLoginForm` (`src/script.js` lines 461-480): email must pass
`isValidEmail`, password must be non-empty; each check writes or clears its
slot; returns the updated slots and the net validity. -/
def validateLoginForm (st : ErrorSlots) (credentials : Credentials) :
    ErrorSlots × Bool :=
  let (st1, v1) :=
    if !isValidEmail (jsToString credentials.email) then
      (showFieldError st .emailError (str "Please enter a valid email address"), false)
    else
      (clearFieldError st .emailError, true)
  let (st2, v2) :=
    if !truthy credentials.password ||
       (jsToString credentials.password).length < 1 then
      (showFieldError st1 .passwordError (str "Password is required"), false)
    else
      (clearFieldError st1 .passwordError, true)
  (st2, v1 && v2)

/-- `validateRegisterForm` (`src/script.js` lines 482-520): four independent
checks (name, email, password policy, confirmation), each writing or
clearing its own slot; the result is valid only when all four pass. -/
def validateRegisterForm (st : ErrorSlots) (userData : UserData) :
    ErrorSlots × Bool :=
  let (st1, v1) :=
    if !truthy userData.name || (trimJS (jsToString userData.name)).length < 2 then
      (showFieldError st .nameError
        (str "Please enter your full name (at least 2 characters)"), false)
    else
      (clearFieldError st .nameError, true)
  let (st2, v2) :=
    if !isValidEmail (jsToString userData.email) then
      (showFieldError st1 .registerEmailError
        (str "Please enter a valid email address"), false)
    else
      (clearFieldError st1 .registerEmailError, true)
  let pv := validatePassword userData.password
  let (st3, v3) :=
    if !pv.isValid then
      (showFieldError st2 .registerPasswordError (pv.message.getD []), false)
    else
      (clearFieldError st2 .registerPasswordError, true)
  let (st4, v4) :=
    if userData.password ≠ userData.confirmPassword then
      (showFieldError st3 .confirmPasswordError (str "Passwords do not match"), false)
    else
      (clearFieldError st3 .confirmPasswordError, true)
  (st4, v1 && v2 && v3 && v4)

/-- `validatePasswordMatch` (`src/script.js` lines 571-582,
`src/script-merged.js` lines 313-327): real-time confirm-field check over
the two input values (input `.value` is always a string). -/
def validatePasswordMatch (st : ErrorSlots)
    (password confirmPassword : List Char) : ErrorSlots :=
  if !confirmPassword.isEmpty && password ≠ confirmPassword then
    showFieldError st .confirmPasswordError (str "Passwords do not match")
  else
    clearFieldError st .confirmPasswordError

/-- The success payload synthesized by the mocked `authenticateUser`
(the random UUID is abstracted away). -/
structure AuthSuccess where
  userEmail : Option (List Char)
  userName : List Char
  token : List Char
deriving DecidableEq, Repr

/-- `authenticateUser` (`src/script.js` lines 646-671), with the randomized
delay abstracted: throws for the two sentinel emails, otherwise succeeds
with a synthesized user record and the mock token.  The `type` argument
(`'login'` or `'register'`) only affects the delay, not the outcome. -/
def authenticateUser (credentials : UserData) (type : List Char) :
    Except (List Char) AuthSuccess :=
  if credentials.email = some (str "test@error.com") then
    .error (str "Invalid credentials")
  else if credentials.email = some (str "test@network.com") then
    .error (str "Network connection failed")
  else
    .ok ⟨credentials.email,
         (match credentials.name with
          | some l => if l.isEmpty then str "User" else l
          | none => str "User"),
         str "mock-jwt-token"⟩

end ScriptJS

namespace MergedJS

/-- The outcome of the inline mocked authentication in `handleLogin`
(`src/script-merged.js` lines 128-149): after the delay, only the
`test@error.com` sentinel throws; everything else proceeds to success. -/
def loginAuthOutcome (email : Option (List Char)) : Except (List Char) Unit :=
  if email = some (str "test@error.com") then
    .error (str "Invalid credentials")
  else
    .ok ()

/-- The outcome of the inline mocked authentication in `handleRegister`
(`src/script-merged.js` lines 164-176): the try block contains no sentinel
check and never throws. -/
def registerAuthOutcome (_userData : UserData) : Except (List Char) Unit :=
  .ok ()

end MergedJS

/-- Observable effects of registration submit processing, counted over a run:
how many times client-side validation executed, how many mock
authentication calls were started, and how many submit-time error displays
(field errors or auth-failure toasts) were produced. -/
structure RegObservables where
  validationsRun : Nat
  authCallsStarted : Nat
  errorsShown : Nat
deriving DecidableEq, Repr

namespace ScriptJS

/-- State of the registration single-flight guard in the first `AuthManager`
of `src/script.js`: the `registrationInProgress` latch plus the pending
`setTimeout` (absolute firing time in ms) that the `finally` block schedules
to clear it, together with the observable counters. -/
structure RegState where
  registrationInProgress : Bool
  clearAt : Option Nat
  obs : RegObservables
deriving DecidableEq, Repr

/-- The synchronous prefix of `handleRegister` (`src/script.js` lines
374-420) run for a submit event at time `t` whose form data validates to
`formValid`.  If the guard is set the handler returns at once: the state is
untouched.  Otherwise the guard is latched; failed validation shows field
errors and returns (its `finally` schedules the guard clear 1000 ms after
the return), while passed validation starts the mock authentication call
(the guard clear is then scheduled by `settle` when the call finishes). -/
def handleRegisterSubmit (st : RegState) (t : Nat) (formValid : Bool) : RegState :=
  if st.registrationInProgress then
    st
  else if formValid then
    { st with
      registrationInProgress := true
      obs := { st.obs with
        validationsRun := st.obs.validationsRun + 1
        authCallsStarted := st.obs.authCallsStarted + 1 } }
  else
    { st with
      registrationInProgress := true
      clearAt := some (t + 1000)
      obs := { st.obs with
        validationsRun := st.obs.validationsRun + 1
        errorsShown := st.obs.errorsShown + 1 } }

/-- Completion of the awaited `authenticateUser` call at time `t` (success
or failure; a failure also shows an error).  The `finally` block then runs
`setTimeout(() => registrationInProgress = false, 1000)`: the guard stays
latched and its clear is scheduled 1000 ms later. -/
def settle (st : RegState) (t : Nat) (failed : Bool) : RegState :=
  { st with
    clearAt := some (t + 1000)
    obs := { st.obs with
      errorsShown := if failed then st.obs.errorsShown + 1 else st.obs.errorsShown } }

/-- The scheduled timeout fires at its due time and clears the guard. -/
def timerFire (st : RegState) (t : Nat) : RegState :=
  if st.clearAt = some t then
    { st with registrationInProgress := false, clearAt := none }
  else
    st

end ScriptJS

namespace MergedJS

/-- `handleRegister` in `src/script-merged.js` (lines 152-182) consults no
guard: every submit event runs validation, and every valid submit starts a
mock authentication call, regardless of any submission still in flight. -/
def handleRegisterSubmit (obs : RegObservables) (formValid : Bool) : RegObservables :=
  if formValid then
    { obs with
      validationsRun := obs.validationsRun + 1
      authCallsStarted := obs.authCallsStarted + 1 }
  else
    { obs with
      validationsRun := obs.validationsRun + 1
      errorsShown := obs.errorsShown + 1 }

end MergedJS

/-! ## Helper lemmas -/

theorem ite_one_mono {p q : Prop} [Decidable p] [Decidable q] (h : p → q) :
    (if p then 1 else 0) ≤ (if q then 1 else 0) := by
  split_ifs with h1 h2
  · exact Nat.le_refl 1
  · exact absurd (h h1) h2
  · exact Nat.zero_le 1
  · exact Nat.le_refl 0

theorem ite_one_le_one {p : Prop} [Decidable p] :
    (if p then 1 else 0) ≤ 1 := by
  split_ifs <;> omega

/-- The `levels` lookup, characterized as a chain of inclusive range tests
with the out-of-range default. -/
theorem levelFor_spec (n : Nat) :
    levelFor n =
      if n ≤ 2 then ⟨0, 2, str "weak", str "Weak password"⟩
      else if n ≤ 4 then ⟨3, 4, str "fair", str "Fair password"⟩
      else if n ≤ 6 then ⟨5, 6, str "good", str "Good password"⟩
      else if n ≤ 8 then ⟨7, 8, str "strong", str "Strong password"⟩
      else ⟨0, 2, str "weak", str "Weak password"⟩ := by
  rcases Nat.lt_or_ge n 9 with h | h
  · interval_cases n <;> rfl
  · have h2 : ¬ n ≤ 2 := by omega
    have h4 : ¬ n ≤ 4 := by omega
    have h6 : ¬ n ≤ 6 := by omega
    have h8 : ¬ n ≤ 8 := by omega
    simp [levelFor, strengthLevels, List.find?, h2, h4, h6, h8]

/-- Band rank through `levelFor` is monotone on the reachable scores. -/
theorem bandRank_levelFor_mono {a b : Nat} (hab : a ≤ b) (hb : b ≤ 8) :
    bandRank (levelFor a).level ≤ bandRank (levelFor b).level := by
  have H : ∀ y, y < 9 → ∀ x, x < 9 → x ≤ y →
      bandRank (levelFor x).level ≤ bandRank (levelFor y).level := by decide
  exact H b (by omega) a (by omega) hab

/-- The six-check score never exceeds 6. -/
theorem passwordScore_le_six (s : List Char) : ScriptJS.passwordScore s ≤ 6 := by
  unfold ScriptJS.passwordScore
  have h1 : (if s.length ≥ 8 then 1 else 0) ≤ 1 := ite_one_le_one
  have h2 : (if s.length ≥ 12 then 1 else 0) ≤ 1 := ite_one_le_one
  have h3 : (if s.any isLowerAlpha then 1 else 0) ≤ 1 := ite_one_le_one
  have h4 : (if s.any isUpperAlpha then 1 else 0) ≤ 1 := ite_one_le_one
  have h5 : (if s.any isDigitCh then 1 else 0) ≤ 1 := ite_one_le_one
  have h6 : (if s.any isSymbolCh then 1 else 0) ≤ 1 := ite_one_le_one
  omega

/-- The eight-check score never exceeds 8. -/
theorem passwordScoreV2_le_eight (s : List Char) : ScriptJSv2.passwordScore s ≤ 8 := by
  unfold ScriptJSv2.passwordScore
  have h1 : (if s.length ≥ 8 then 1 else 0) ≤ 1 := ite_one_le_one
  have h2 : (if s.length ≥ 12 then 1 else 0) ≤ 1 := ite_one_le_one
  have h3 : (if s.any isLowerAlpha then 1 else 0) ≤ 1 := ite_one_le_one
  have h4 : (if s.any isUpperAlpha then 1 else 0) ≤ 1 := ite_one_le_one
  have h5 : (if s.any isDigitCh then 1 else 0) ≤ 1 := ite_one_le_one
  have h6 : (if s.any isSymbolCh then 1 else 0) ≤ 1 := ite_one_le_one
  have h7 : (if !hasTriple s then 1 else 0) ≤ 1 := ite_one_le_one
  have h8 : (if !hasSeqRun s then 1 else 0) ≤ 1 := ite_one_le_one
  omega

/-- Every character belongs to one of the four classes. -/
theorem class_cover (c : Char) :
    isLowerAlpha c = true ∨ isUpperAlpha c = true ∨ isDigitCh c = true ∨
    isSymbolCh c = true := by
  cases h1 : isLowerAlpha c
  · cases h2 : isUpperAlpha c
    · cases h3 : isDigitCh c
      · exact Or.inr (Or.inr (Or.inr (by simp [isSymbolCh, h1, h2, h3])))
      · exact Or.inr (Or.inr (Or.inl rfl))
    · exact Or.inr (Or.inl rfl)
  · exact Or.inl rfl

theorem sameClass_self (c : Char) : sameClass c c = true := by
  simp only [sameClass, isSymbolCh]
  cases isLowerAlpha c <;> cases isUpperAlpha c <;> cases isDigitCh c <;> rfl

theorem not_mem_of_no_sameClass {s : List Char} {c : Char}
    (h : s.any (sameClass c) = false) : c ∉ s := by
  intro hc
  have ht : s.any (sameClass c) = true := List.any_eq_true.2 ⟨c, hc, sameClass_self c⟩
  rw [h] at ht
  exact Bool.noConfusion ht

/-- If no character of `s` shares `c`'s class and `f` is one of the class
predicates that holds of `c`, then `f` holds of no character of `s`. -/
theorem flag_absent {f : Char → Bool}
    (hf : ∀ a b : Char, f a = true → f b = true → sameClass a b = true)
    {s : List Char} {c : Char}
    (h : s.any (sameClass c) = false) (hc : f c = true) :
    s.any f = false := by
  cases hx : s.any f
  · rfl
  · obtain ⟨x, hxs, hfx⟩ := List.any_eq_true.1 hx
    have := List.any_eq_true.2 ⟨x, hxs, hf c x hc hfx⟩
    rw [h] at this
    exact Bool.noConfusion this

theorem sameClass_of_lower {a b : Char}
    (ha : isLowerAlpha a = true) (hb : isLowerAlpha b = true) :
    sameClass a b = true := by simp [sameClass, ha, hb]

theorem sameClass_of_upper {a b : Char}
    (ha : isUpperAlpha a = true) (hb : isUpperAlpha b = true) :
    sameClass a b = true := by simp [sameClass, ha, hb]

theorem sameClass_of_digit {a b : Char}
    (ha : isDigitCh a = true) (hb : isDigitCh b = true) :
    sameClass a b = true := by simp [sameClass, ha, hb]

theorem sameClass_of_symbol {a b : Char}
    (ha : isSymbolCh a = true) (hb : isSymbolCh b = true) :
    sameClass a b = true := by simp [sameClass, ha, hb]

/-- Appending a character that does not occur in `s` cannot create a
three-in-a-row repetition. -/
theorem hasTriple_append_of_not_mem : ∀ (s : List Char) (c : Char),
    c ∉ s → hasTriple (s ++ [c]) = hasTriple s
  | [], _, _ => rfl
  | [_], _, _ => rfl
  | [a, b], c, h => by
    have hbc : (b == c) = false := by
      simp only [beq_eq_false_iff_ne]
      intro he
      exact h (by simp [he])
    simp [hasTriple, hbc]
  | a :: b :: d :: t, c, h => by
    have h' : c ∉ b :: d :: t := fun hm => h (List.mem_cons_of_mem a hm)
    have ih := hasTriple_append_of_not_mem (b :: d :: t) c h'
    simp only [List.cons_append] at ih ⊢
    simp only [hasTriple, ih]

/-- Generic monotone component: an `any`-flag can only grow under append. -/
theorem ite_any_append_mono (s : List Char) (c : Char) (f : Char → Bool) :
    (if s.any f then 1 else 0) ≤ (if (s ++ [c]).any f then 1 else 0) := by
  refine ite_one_mono (fun h => ?_)
  simp only [List.any_append, List.any_cons, List.any_nil, h, Bool.true_or]

/-- Length flags can only grow under append. -/
theorem ite_length_append_mono (s : List Char) (c : Char) (k : Nat) :
    (if s.length ≥ k then 1 else 0) ≤ (if (s ++ [c]).length ≥ k then 1 else 0) := by
  refine ite_one_mono (fun h => ?_)
  simp only [List.length_append, List.length_cons, List.length_nil]
  omega

/-- Appending a character of a class absent from `s` turns that class's
flag from 0 to 1; stated for an arbitrary class predicate. -/
theorem ite_any_append_gain {s : List Char} {c : Char} {f : Char → Bool}
    (habs : s.any f = false) (hc : f c = true) :
    (if s.any f then 1 else 0) + 1 = (if (s ++ [c]).any f then 1 else 0) := by
  simp [habs, List.any_append, hc]

/-- The six-check score never decreases when a character is appended. -/
theorem passwordScore_append_mono (s : List Char) (c : Char) :
    ScriptJS.passwordScore s ≤ ScriptJS.passwordScore (s ++ [c]) := by
  unfold ScriptJS.passwordScore
  have g1 := ite_length_append_mono s c 8
  have g2 := ite_length_append_mono s c 12
  have g3 := ite_any_append_mono s c isLowerAlpha
  have g4 := ite_any_append_mono s c isUpperAlpha
  have g5 := ite_any_append_mono s c isDigitCh
  have g6 := ite_any_append_mono s c isSymbolCh
  omega

/-- The eight-check score never decreases when a character of an absent
class is appended: the gained class flag compensates for a sequential-run
bonus the new character might break, and the no-repetition bonus cannot be
broken because the appended character does not occur in `s` at all. -/
theorem passwordScoreV2_append_mono (s : List Char) (c : Char)
    (h : s.any (sameClass c) = false) :
    ScriptJSv2.passwordScore s ≤ ScriptJSv2.passwordScore (s ++ [c]) := by
  unfold ScriptJSv2.passwordScore
  have g1 := ite_length_append_mono s c 8
  have g2 := ite_length_append_mono s c 12
  have g3 := ite_any_append_mono s c isLowerAlpha
  have g4 := ite_any_append_mono s c isUpperAlpha
  have g5 := ite_any_append_mono s c isDigitCh
  have g6 := ite_any_append_mono s c isSymbolCh
  have gR : hasTriple (s ++ [c]) = hasTriple s :=
    hasTriple_append_of_not_mem s c (not_mem_of_no_sameClass h)
  rw [gR]
  have gQ : (if !hasSeqRun s then 1 else 0) ≤ 1 := ite_one_le_one
  have gQ' : 0 ≤ (if !hasSeqRun (s ++ [c]) then 1 else 0) := Nat.zero_le _
  have gain : ∃ f : Char → Bool,
      (if s.any f then 1 else 0) + 1 = (if (s ++ [c]).any f then 1 else 0) ∧
      ((f = isLowerAlpha) ∨ (f = isUpperAlpha) ∨ (f = isDigitCh) ∨ (f = isSymbolCh)) := by
    rcases class_cover c with hc | hc | hc | hc
    · exact ⟨isLowerAlpha,
        ite_any_append_gain (flag_absent (fun _ _ => sameClass_of_lower) h hc) hc,
        Or.inl rfl⟩
    · exact ⟨isUpperAlpha,
        ite_any_append_gain (flag_absent (fun _ _ => sameClass_of_upper) h hc) hc,
        Or.inr (Or.inl rfl)⟩
    · exact ⟨isDigitCh,
        ite_any_append_gain (flag_absent (fun _ _ => sameClass_of_digit) h hc) hc,
        Or.inr (Or.inr (Or.inl rfl))⟩
    · exact ⟨isSymbolCh,
        ite_any_append_gain (flag_absent (fun _ _ => sameClass_of_symbol) h hc) hc,
        Or.inr (Or.inr (Or.inr rfl))⟩
  obtain ⟨f, hgain, hcases⟩ := gain
  rcases hcases with rfl | rfl | rfl | rfl <;> omega

/-- `splitAtFirstAt` decomposes its input at the first `'@'`. -/
theorem splitAtFirstAt_eq : ∀ (s a r : List Char),
    splitAtFirstAt s = some (a, r) → s = a ++ '@' :: r ∧ '@' ∉ a := by
  intro s
  induction s with
  | nil => intro a r h; exact absurd h (by simp [splitAtFirstAt])
  | cons x rest ih =>
    intro a r h
    by_cases hx : x = '@'
    · simp [splitAtFirstAt, hx] at h
      obtain ⟨ha, hr⟩ := h
      subst ha; subst hr
      simp [hx]
    · have h' : (splitAtFirstAt rest).map (fun p => (x :: p.1, p.2)) = some (a, r) := by
        simpa [splitAtFirstAt, hx] using h
      cases hsp : splitAtFirstAt rest with
      | none => rw [hsp] at h'; exact absurd h' (by simp)
      | some p =>
        cases p with
        | mk p1 p2 =>
          rw [hsp] at h'
          simp only [Option.map_some', Option.some.injEq, Prod.mk.injEq] at h'
          obtain ⟨hfst, hsnd⟩ := h'
          obtain ⟨he, hnm⟩ := ih p1 p2 hsp
          subst hfst; subst hsnd
          constructor
          · simp [he]
          · simp only [List.mem_cons, not_or]
            exact ⟨fun hc => hx hc.symm, hnm⟩

/-- Conversely, `splitAtFirstAt` recovers a decomposition whose head part
avoids `'@'`. -/
theorem splitAtFirstAt_append : ∀ (a r : List Char), '@' ∉ a →
    splitAtFirstAt (a ++ '@' :: r) = some (a, r) := by
  intro a
  induction a with
  | nil => intro r _; simp [splitAtFirstAt]
  | cons x xs ih =>
    intro r hnm
    have hx : ¬ x = '@' := fun hc => hnm (by simp [hc])
    have hxs : '@' ∉ xs := fun hc => hnm (List.mem_cons_of_mem x hc)
    simp [splitAtFirstAt, hx, ih r hxs]

/-- `dotBeforeEnd` detects exactly the decompositions with a dot that has a
nonempty suffix after it. -/
theorem dotBeforeEnd_iff : ∀ (l : List Char),
    dotBeforeEnd l = true ↔ ∃ b c : List Char, l = b ++ '.' :: c ∧ c ≠ []
  | [] => by
    simp only [dotBeforeEnd]
    constructor
    · intro h; exact absurd h (by simp)
    · rintro ⟨b, c, he, hc⟩
      exact absurd he.symm (by simp)
  | [x] => by
    simp only [dotBeforeEnd]
    constructor
    · intro h; exact absurd h (by simp)
    · rintro ⟨b, c, he, hc⟩
      have hl := congrArg List.length he
      simp [List.length_append] at hl
      have : c = [] := List.length_eq_zero.1 (by omega)
      exact absurd this hc
  | x :: y :: t => by
    constructor
    · intro h
      have h' : (decide (x = '.') || dotBeforeEnd (y :: t)) = true := h
      rw [Bool.or_eq_true] at h'
      rcases h' with hx | hd
      · exact ⟨[], y :: t, by simp [of_decide_eq_true hx], by simp⟩
      · obtain ⟨b, c, he, hc⟩ := (dotBeforeEnd_iff (y :: t)).1 hd
        exact ⟨x :: b, c, by simp [he], hc⟩
    · rintro ⟨b, c, he, hc⟩
      show (decide (x = '.') || dotBeforeEnd (y :: t)) = true
      rw [Bool.or_eq_true]
      cases b with
      | nil =>
        simp at he
        exact Or.inl (decide_eq_true he.1)
      | cons b0 bs =>
        simp at he
        exact Or.inr ((dotBeforeEnd_iff (y :: t)).2 ⟨bs, c, he.2, hc⟩)

/-- The operational matcher agrees with the declarative semantics of
`^[^\s@]+@[^\s@]+\.[^\s@]+$`. -/
theorem isValidEmail_iff_matches (s : List Char) :
    isValidEmail s = true ↔ EmailMatches s := by
  constructor
  · intro h
    unfold isValidEmail at h
    cases hsp : splitAtFirstAt s with
    | none => rw [hsp] at h; exact absurd h (by simp)
    | some p =>
      cases p with
      | mk a r =>
        rw [hsp] at h
        simp only [Bool.and_eq_true, Bool.not_eq_true'] at h
        obtain ⟨⟨⟨hne, hoka⟩, hokr⟩, hdot⟩ := h
        cases r with
        | nil => exact absurd hdot (by simp)
        | cons r0 rest =>
          obtain ⟨b', c, hre, hc⟩ := (dotBeforeEnd_iff rest).1 hdot
          obtain ⟨hs, _⟩ := splitAtFirstAt_eq s a (r0 :: rest) hsp
          refine ⟨a, r0 :: b', c, ?_, by simp, hc, ?_, ?_, ?_, ?_⟩
          · intro hae; rw [hae] at hne; exact absurd hne (by simp)
          · exact fun x hx => List.all_eq_true.1 hoka x hx
          · intro x hx
            refine List.all_eq_true.1 hokr x ?_
            rcases List.mem_cons.1 hx with hx0 | hxb
            · simp [hx0]
            · simp [hre, List.mem_append, hxb]
          · intro x hx
            refine List.all_eq_true.1 hokr x ?_
            simp [hre, List.mem_append, hx]
          · rw [hs, hre]; simp
  · rintro ⟨a, b, c, ha, hb, hc, hoka, hokb, hokc, hs⟩
    have hnma : '@' ∉ a := by
      intro hm
      have := hoka '@' hm
      simp [okEmailChar] at this
    unfold isValidEmail
    rw [hs, splitAtFirstAt_append a (b ++ '.' :: c) hnma]
    simp only [Bool.and_eq_true, Bool.not_eq_true']
    refine ⟨⟨⟨by simp [List.isEmpty_iff, ha], ?_⟩, ?_⟩, ?_⟩
    · exact List.all_eq_true.2 hoka
    · refine List.all_eq_true.2 (fun x hx => ?_)
      rcases List.mem_append.1 hx with hxb | hxdc
      · exact hokb x hxb
      · rcases List.mem_cons.1 hxdc with hx0 | hxc
        · rw [hx0]; decide
        · exact hokc x hxc
    · cases b with
      | nil => exact absurd rfl hb
      | cons b0 bs =>
        simp only [List.cons_append]
        exact (dotBeforeEnd_iff (bs ++ '.' :: c)).2 ⟨bs, c, rfl, hc⟩

/-! ## Claim theorems -/

/-- C1 (amended): for every password string `s`, the `src/script.js`
`validatePassword` returns the required-message failure when `s` is empty,
the minimum-length failure when `s` is shorter than 8 characters, the
complexity failure when `s` lacks one of lowercase/uppercase/digit, and
success otherwise; the `src/script-merged.js` variant agrees on the empty
and too-short cases but omits the complexity check, accepting every
password of length at least 8. -/
theorem C1_validatePassword_cases : ∀ (s : List Char),
    (s = [] → ScriptJS.validatePassword (some s) =
      ⟨false, some (str "Password is required")⟩) ∧
    (s ≠ [] → s.length < 8 → ScriptJS.validatePassword (some s) =
      ⟨false, some (str "Password must be at least 8 characters long")⟩) ∧
    (8 ≤ s.length →
      ¬(s.any isLowerAlpha = true ∧ s.any isUpperAlpha = true ∧ s.any isDigitCh = true) →
      ScriptJS.validatePassword (some s) =
      ⟨false, some (str "Password must contain uppercase, lowercase, and number")⟩) ∧
    (8 ≤ s.length → s.any isLowerAlpha = true → s.any isUpperAlpha = true →
      s.any isDigitCh = true →
      ScriptJS.validatePassword (some s) = ⟨true, none⟩) ∧
    (s = [] → MergedJS.validatePassword (some s) =
      ⟨false, some (str "Password is required")⟩) ∧
    (s ≠ [] → s.length < 8 → MergedJS.validatePassword (some s) =
      ⟨false, some (str "Password must be at least 8 characters long")⟩) ∧
    (8 ≤ s.length → MergedJS.validatePassword (some s) = ⟨true, none⟩) := by
  intro s
  have hne_of_len : 8 ≤ s.length → s ≠ [] := by
    intro hl he; rw [he] at hl; simp at hl
  refine ⟨?_, ?_, ?_, ?_, ?_, ?_, ?_⟩
  · intro h; subst h; rfl
  · intro hne hlt
    simp [ScriptJS.validatePassword, truthy, jsToString, List.isEmpty_iff, hne, hlt]
  · intro hlen hmiss
    have hne := hne_of_len hlen
    have hnlt : ¬ s.length < 8 := by omega
    have hcond : (s.any isLowerAlpha && s.any isUpperAlpha && s.any isDigitCh) = false := by
      cases h1 : s.any isLowerAlpha <;> cases h2 : s.any isUpperAlpha <;>
        cases h3 : s.any isDigitCh <;> simp_all
    simp [ScriptJS.validatePassword, truthy, jsToString, List.isEmpty_iff, hne, hnlt, hcond]
  · intro hlen h1 h2 h3
    have hne := hne_of_len hlen
    have hnlt : ¬ s.length < 8 := by omega
    simp [ScriptJS.validatePassword, truthy, jsToString, List.isEmpty_iff, hne, hnlt, h1, h2, h3]
  · intro h; subst h; rfl
  · intro hne hlt
    simp [MergedJS.validatePassword, truthy, jsToString, List.isEmpty_iff, hne, hlt]
  · intro hlen
    have hne := hne_of_len hlen
    have hnlt : ¬ s.length < 8 := by omega
    simp [MergedJS.validatePassword, truthy, jsToString, List.isEmpty_iff, hne, hnlt]

/-- C1 witness: the amended theorem applied at concrete inputs for each
branch of both variants. -/
theorem C1_validatePassword_witness :
    ScriptJS.validatePassword (some (str "")) =
      ⟨false, some (str "Password is required")⟩ ∧
    ScriptJS.validatePassword (some (str "short")) =
      ⟨false, some (str "Password must be at least 8 characters long")⟩ ∧
    ScriptJS.validatePassword (some (str "abcdefgh")) =
      ⟨false, some (str "Password must contain uppercase, lowercase, and number")⟩ ∧
    ScriptJS.validatePassword (some (str "Abcdefg1")) = ⟨true, none⟩ ∧
    MergedJS.validatePassword (some (str "abcdefgh")) = ⟨true, none⟩ :=
  ⟨(C1_validatePassword_cases (str "")).1 (by decide),
   (C1_validatePassword_cases (str "short")).2.1 (by decide) (by decide),
   (C1_validatePassword_cases (str "abcdefgh")).2.2.1 (by decide) (by decide),
   (C1_validatePassword_cases (str "Abcdefg1")).2.2.2.1 (by decide) (by decide)
     (by decide) (by decide),
   (C1_validatePassword_cases (str "abcdefgh")).2.2.2.2.2.2 (by decide)⟩

/-- C1 counterexample: the claim as stated demands a complexity failure for
"abcdefgh" (no uppercase, no digit), but the `src/script-merged.js`
`validatePassword` cited by the claim accepts it. -/
theorem C1_validatePassword_cex :
    (str "abcdefgh").any isUpperAlpha = false ∧
    (str "abcdefgh").any isDigitCh = false ∧
    (MergedJS.validatePassword (some (str "abcdefgh"))).isValid = true := by
  decide

/-- C2: both strength scorers are additive over their checks, the six-check
score is at most 6 and the eight-check score at most 8, and the band lookup
maps scores by first match over the ascending inclusive ranges 0-2 weak,
3-4 fair, 5-6 good, 7-8 strong, with any out-of-range score defaulting to
weak. -/
theorem C2_strength_bands : ∀ (s : List Char),
    ScriptJS.calculatePasswordStrength s = levelFor (ScriptJS.passwordScore s) ∧
    ScriptJSv2.calculatePasswordStrength s = levelFor (ScriptJSv2.passwordScore s) ∧
    ScriptJS.passwordScore s ≤ 6 ∧
    ScriptJSv2.passwordScore s ≤ 8 ∧
    (∀ n : Nat,
      (n ≤ 2 → (levelFor n).level = str "weak") ∧
      (3 ≤ n → n ≤ 4 → (levelFor n).level = str "fair") ∧
      (5 ≤ n → n ≤ 6 → (levelFor n).level = str "good") ∧
      (7 ≤ n → n ≤ 8 → (levelFor n).level = str "strong") ∧
      (9 ≤ n → (levelFor n).level = str "weak")) := by
  intro s
  refine ⟨rfl, rfl, passwordScore_le_six s, passwordScoreV2_le_eight s, fun n => ?_⟩
  refine ⟨?_, ?_, ?_, ?_, ?_⟩
  · intro h
    rw [levelFor_spec n, if_pos h]
  · intro h1 h2
    rw [levelFor_spec n, if_neg (by omega), if_pos h2]
  · intro h1 h2
    rw [levelFor_spec n, if_neg (by omega), if_neg (by omega), if_pos h2]
  · intro h1 h2
    rw [levelFor_spec n, if_neg (by omega), if_neg (by omega), if_neg (by omega), if_pos h2]
  · intro h
    rw [levelFor_spec n, if_neg (by omega), if_neg (by omega), if_neg (by omega),
      if_neg (by omega)]

/-- C2 witness: the theorem applied at a concrete password and concrete
scores in each band, out-of-range score included. -/
theorem C2_strength_bands_witness :
    ScriptJS.passwordScore (str "Abcdef1!Xy2Z") ≤ 6 ∧
    (levelFor 0).level = str "weak" ∧
    (levelFor 3).level = str "fair" ∧
    (levelFor 5).level = str "good" ∧
    (levelFor 8).level = str "strong" ∧
    (levelFor 9).level = str "weak" :=
  ⟨(C2_strength_bands (str "Abcdef1!Xy2Z")).2.2.1,
   ((C2_strength_bands (str "")).2.2.2.2 0).1 (by omega),
   ((C2_strength_bands (str "")).2.2.2.2 3).2.1 (by omega) (by omega),
   ((C2_strength_bands (str "")).2.2.2.2 5).2.2.1 (by omega) (by omega),
   ((C2_strength_bands (str "")).2.2.2.2 8).2.2.2.1 (by omega) (by omega),
   ((C2_strength_bands (str "")).2.2.2.2 9).2.2.2.2 (by omega)⟩

/-- C3: appending one character whose class (lowercase, uppercase, digit,
symbol) is absent from `s` never decreases the strength band, in the
six-check variant and in the eight-check variant with the repetition and
sequential-run bonuses. -/
theorem C3_strength_monotone : ∀ (s : List Char) (c : Char),
    s.any (sameClass c) = false →
    bandRank (ScriptJS.calculatePasswordStrength s).level ≤
      bandRank (ScriptJS.calculatePasswordStrength (s ++ [c])).level ∧
    bandRank (ScriptJSv2.calculatePasswordStrength s).level ≤
      bandRank (ScriptJSv2.calculatePasswordStrength (s ++ [c])).level := by
  intro s c h
  constructor
  · simp only [ScriptJS.calculatePasswordStrength]
    exact bandRank_levelFor_mono (passwordScore_append_mono s c)
      (Nat.le_trans (passwordScore_le_six (s ++ [c])) (by omega))
  · simp only [ScriptJSv2.calculatePasswordStrength]
    exact bandRank_levelFor_mono (passwordScoreV2_append_mono s c h)
      (passwordScoreV2_le_eight (s ++ [c]))

/-- C3 witness: the monotonicity theorem applied to a concrete password and
a concrete new-class character. -/
theorem C3_strength_monotone_witness :
    (str "BCDEFG1!").any (sameClass 'a') = false ∧
    bandRank (ScriptJSv2.calculatePasswordStrength (str "BCDEFG1!")).level ≤
      bandRank (ScriptJSv2.calculatePasswordStrength (str "BCDEFG1!" ++ ['a'])).level :=
  ⟨by decide, (C3_strength_monotone (str "BCDEFG1!") 'a' (by decide)).2⟩

/-- C4 (amended): in the guarded `src/script.js` variant, a submit arriving
while `registrationInProgress` is set is a strict no-op (the state, hence
every observable, is unchanged); a submit arriving with the guard clear
latches it; completion of an attempt keeps the guard latched and schedules
the clearing timeout 1000 ms later; and the timeout clears the guard
exactly at its scheduled time.  The `src/script-merged.js` variant has no
such guard (see the counterexample). -/
theorem C4_single_flight_guard :
    (∀ (st : ScriptJS.RegState) (t : Nat) (v : Bool),
      st.registrationInProgress = true → ScriptJS.handleRegisterSubmit st t v = st) ∧
    (∀ (st : ScriptJS.RegState) (t : Nat) (v : Bool),
      st.registrationInProgress = false →
        (ScriptJS.handleRegisterSubmit st t v).registrationInProgress = true) ∧
    (∀ (st : ScriptJS.RegState) (t : Nat) (failed : Bool),
      (ScriptJS.settle st t failed).registrationInProgress = st.registrationInProgress ∧
      (ScriptJS.settle st t failed).clearAt = some (t + 1000)) ∧
    (∀ (st : ScriptJS.RegState) (t : Nat),
      st.clearAt = some t → (ScriptJS.timerFire st t).registrationInProgress = false) ∧
    (∀ (st : ScriptJS.RegState) (t : Nat),
      st.clearAt ≠ some t → ScriptJS.timerFire st t = st) := by
  refine ⟨?_, ?_, ?_, ?_, ?_⟩
  · intro st t v h
    simp [ScriptJS.handleRegisterSubmit, h]
  · intro st t v h
    cases hv : v <;> simp [ScriptJS.handleRegisterSubmit, h, hv]
  · intro st t failed
    exact ⟨rfl, rfl⟩
  · intro st t h
    simp [ScriptJS.timerFire, h]
  · intro st t h
    simp [ScriptJS.timerFire, h]

/-- C4 witness: the guard theorem applied to a concrete in-flight state and
a concrete completion. -/
theorem C4_single_flight_guard_witness :
    (⟨true, none, ⟨1, 1, 0⟩⟩ : ScriptJS.RegState).registrationInProgress = true ∧
    ScriptJS.handleRegisterSubmit ⟨true, none, ⟨1, 1, 0⟩⟩ 500 true = ⟨true, none, ⟨1, 1, 0⟩⟩ ∧
    (⟨true, some 2500, ⟨1, 1, 0⟩⟩ : ScriptJS.RegState).clearAt = some 2500 ∧
    (ScriptJS.timerFire ⟨true, some 2500, ⟨1, 1, 0⟩⟩ 2500).registrationInProgress = false :=
  ⟨rfl,
   C4_single_flight_guard.1 ⟨true, none, ⟨1, 1, 0⟩⟩ 500 true rfl,
   rfl,
   C4_single_flight_guard.2.2.2.1 ⟨true, some 2500, ⟨1, 1, 0⟩⟩ 2500 rfl⟩

/-- C4 counterexample: in `src/script-merged.js`, also cited by the claim,
a second submit arriving before the first attempt (whose mock call is
already started and not yet completed) finishes is processed normally:
starting from fresh counters, two back-to-back valid submits run validation
twice and start two mock authentication calls, instead of ignoring the
second one. -/
theorem C4_single_flight_guard_cex :
    MergedJS.handleRegisterSubmit (MergedJS.handleRegisterSubmit ⟨0, 0, 0⟩ true) true =
      ⟨2, 2, 0⟩ := by
  decide

/-- C5 (amended): the `src/script.js` mock `authenticateUser` fails exactly
on the two sentinel emails — `test@error.com` with the invalid-credentials
message and `test@network.com` with the network message — and otherwise
succeeds with a synthesized user record and the mock token, identically for
the login and registration call types; in `src/script-merged.js` the inline
mock on the login path fails only for `test@error.com` and the registration
path never fails. -/
theorem C5_mock_auth :
    (∀ (c : UserData) (ty : List Char),
      (ScriptJS.authenticateUser c ty = .error (str "Invalid credentials") ↔
        c.email = some (str "test@error.com")) ∧
      (ScriptJS.authenticateUser c ty = .error (str "Network connection failed") ↔
        c.email = some (str "test@network.com")) ∧
      (c.email ≠ some (str "test@error.com") → c.email ≠ some (str "test@network.com") →
        ScriptJS.authenticateUser c ty =
          .ok ⟨c.email,
               (match c.name with
                | some l => if l.isEmpty then str "User" else l
                | none => str "User"),
               str "mock-jwt-token"⟩)) ∧
    (∀ e : Option (List Char), e ≠ some (str "test@error.com") →
      MergedJS.loginAuthOutcome e = .ok ()) ∧
    (∀ u : UserData, MergedJS.registerAuthOutcome u = .ok ()) := by
  refine ⟨?_, ?_, fun u => rfl⟩
  · intro c ty
    by_cases h1 : c.email = some (str "test@error.com")
    · have h2 : c.email ≠ some (str "test@network.com") := by
        rw [h1]; decide
      refine ⟨?_, ?_, ?_⟩
      · simp [ScriptJS.authenticateUser, h1]
      · simp [ScriptJS.authenticateUser, h1, h2]
        decide
      · intro hc; exact absurd h1 hc
    · by_cases h2 : c.email = some (str "test@network.com")
      · refine ⟨?_, ?_, ?_⟩
        · simp [ScriptJS.authenticateUser, h1, h2]
          decide
        · simp [ScriptJS.authenticateUser, h1, h2]
          decide
        · intro _ hc; exact absurd h2 hc
      · refine ⟨?_, ?_, ?_⟩
        · simp [ScriptJS.authenticateUser, h1, h2]
        · simp [ScriptJS.authenticateUser, h1, h2]
        · intro _ _; simp [ScriptJS.authenticateUser, h1, h2]
  · intro e he
    simp [MergedJS.loginAuthOutcome, he]

/-- C5 witness: the mock-auth theorem applied at concrete inputs: a
non-sentinel registration succeeds with the synthesized record, and a
sentinel login fails with the invalid-credentials message. -/
theorem C5_mock_auth_witness :
    ScriptJS.authenticateUser
      ⟨some (str "Jo"), some (str "user@example.com"), some (str "Abcdefg1"),
       some (str "Abcdefg1")⟩ (str "register") =
      .ok ⟨some (str "user@example.com"), str "Jo", str "mock-jwt-token"⟩ ∧
    ScriptJS.authenticateUser ⟨none, some (str "test@error.com"), some (str "x"), none⟩
      (str "login") = .error (str "Invalid credentials") ∧
    MergedJS.loginAuthOutcome (some (str "user@example.com")) = .ok () :=
  ⟨(C5_mock_auth.1 ⟨some (str "Jo"), some (str "user@example.com"),
      some (str "Abcdefg1"), some (str "Abcdefg1")⟩ (str "register")).2.2
      (by decide) (by decide),
   ((C5_mock_auth.1 ⟨none, some (str "test@error.com"), some (str "x"), none⟩
      (str "login")).1).2 rfl,
   C5_mock_auth.2.1 (some (str "user@example.com")) (by decide)⟩

/-- C5 counterexample: in `src/script-merged.js`, also cited by the claim,
the login path does not fail for the network sentinel and the registration
path does not fail for either sentinel. -/
theorem C5_mock_auth_cex :
    MergedJS.loginAuthOutcome (some (str "test@network.com")) = .ok () ∧
    MergedJS.registerAuthOutcome
      ⟨some (str "Jo"), some (str "test@error.com"), some (str "Abcdefg1"),
       some (str "Abcdefg1")⟩ = .ok () := by
  constructor
  · have h : (some (str "test@network.com") : Option (List Char)) ≠
        some (str "test@error.com") := by decide
    simp [MergedJS.loginAuthOutcome, h]
  · rfl

/-- C6: `validateRegisterForm` evaluates all four checks without
short-circuiting — each failing check writes its message into its own
named slot and each passing check clears that slot, independently of the
other checks — leaves the login slots untouched, and returns valid exactly
when all four checks pass. -/
theorem C6_validateRegisterForm : ∀ (st : ErrorSlots) (u : UserData),
    (ScriptJS.validateRegisterForm st u).2 =
      ((truthy u.name && !decide ((trimJS (jsToString u.name)).length < 2)) &&
       isValidEmail (jsToString u.email) &&
       (ScriptJS.validatePassword u.password).isValid &&
       decide (u.password = u.confirmPassword)) ∧
    (ScriptJS.validateRegisterForm st u).1.nameError =
      (if truthy u.name && !decide ((trimJS (jsToString u.name)).length < 2) then []
       else str "Please enter your full name (at least 2 characters)") ∧
    (ScriptJS.validateRegisterForm st u).1.registerEmailError =
      (if isValidEmail (jsToString u.email) then []
       else str "Please enter a valid email address") ∧
    (ScriptJS.validateRegisterForm st u).1.registerPasswordError =
      (if (ScriptJS.validatePassword u.password).isValid then []
       else (ScriptJS.validatePassword u.password).message.getD []) ∧
    (ScriptJS.validateRegisterForm st u).1.confirmPasswordError =
      (if u.password = u.confirmPassword then [] else str "Passwords do not match") ∧
    (ScriptJS.validateRegisterForm st u).1.emailError = st.emailError ∧
    (ScriptJS.validateRegisterForm st u).1.passwordError = st.passwordError := by
  intro st u
  by_cases hcf : u.password = u.confirmPassword
  · cases hn : truthy u.name <;>
      cases hl : decide ((trimJS (jsToString u.name)).length < 2) <;>
      cases he : isValidEmail (jsToString u.email) <;>
      cases hp : (ScriptJS.validatePassword u.password).isValid <;>
      (have hp2 := hcf ▸ hp
       simp [ScriptJS.validateRegisterForm, showFieldError, clearFieldError, setSlot,
         hn, hl, he, hp, hp2, hcf])
  · cases hn : truthy u.name <;>
      cases hl : decide ((trimJS (jsToString u.name)).length < 2) <;>
      cases he : isValidEmail (jsToString u.email) <;>
      cases hp : (ScriptJS.validatePassword u.password).isValid <;>
      simp [ScriptJS.validateRegisterForm, showFieldError, clearFieldError, setSlot,
        hn, hl, he, hp, hcf]

/-- C6 witness: a concrete submission failing three of the four checks at
once surfaces all three field errors simultaneously while the passing
check's slot is cleared. -/
theorem C6_validateRegisterForm_witness :
    (ScriptJS.validateRegisterForm
      ⟨str "x", str "x", str "x", str "x", str "x", str "x"⟩
      ⟨some (str " J "), some (str "a@b.co"), some (str "short"),
       some (str "other")⟩).2 = false ∧
    (ScriptJS.validateRegisterForm
      ⟨str "x", str "x", str "x", str "x", str "x", str "x"⟩
      ⟨some (str " J "), some (str "a@b.co"), some (str "short"),
       some (str "other")⟩).1 =
      ⟨str "Please enter your full name (at least 2 characters)", [],
       str "Password must be at least 8 characters long",
       str "Passwords do not match", str "x", str "x"⟩ := by
  have h := C6_validateRegisterForm
    ⟨str "x", str "x", str "x", str "x", str "x", str "x"⟩
    ⟨some (str " J "), some (str "a@b.co"), some (str "short"), some (str "other")⟩
  obtain ⟨h1, h2, h3, h4, h5, h6, h7⟩ := h
  refine ⟨?_, ?_⟩
  · rw [h1]; decide
  · have e2 : (ScriptJS.validateRegisterForm
      ⟨str "x", str "x", str "x", str "x", str "x", str "x"⟩
      ⟨some (str " J "), some (str "a@b.co"), some (str "short"),
       some (str "other")⟩).1.nameError =
        str "Please enter your full name (at least 2 characters)" := by
      rw [h2]; decide
    have e3 : (ScriptJS.validateRegisterForm
      ⟨str "x", str "x", str "x", str "x", str "x", str "x"⟩
      ⟨some (str " J "), some (str "a@b.co"), some (str "short"),
       some (str "other")⟩).1.registerEmailError = [] := by
      rw [h3]; decide
    have e4 : (ScriptJS.validateRegisterForm
      ⟨str "x", str "x", str "x", str "x", str "x", str "x"⟩
      ⟨some (str " J "), some (str "a@b.co"), some (str "short"),
       some (str "other")⟩).1.registerPasswordError =
        str "Password must be at least 8 characters long" := by
      rw [h4]; decide
    have e5 : (ScriptJS.validateRegisterForm
      ⟨str "x", str "x", str "x", str "x", str "x", str "x"⟩
      ⟨some (str " J "), some (str "a@b.co"), some (str "short"),
       some (str "other")⟩).1.confirmPasswordError =
        str "Passwords do not match" := by
      rw [h5]; decide
    cases hres : (ScriptJS.validateRegisterForm
      ⟨str "x", str "x", str "x", str "x", str "x", str "x"⟩
      ⟨some (str " J "), some (str "a@b.co"), some (str "short"),
       some (str "other")⟩).1
    rw [hres] at e2 e3 e4 e5 h6 h7
    simp only at e2 e3 e4 e5 h6 h7
    simp [e2, e3, e4, e5, h6, h7]

/-- C7: `isValidEmail` agrees exactly with the declarative semantics of the
anchored pattern, and behaves as specified on the four sample inputs. -/
theorem C7_isValidEmail :
    (∀ s : List Char, isValidEmail s = true ↔ EmailMatches s) ∧
    isValidEmail (str "a@b.co") = true ∧
    isValidEmail (str "a@b") = false ∧
    isValidEmail (str "a b@c.com") = false ∧
    isValidEmail (str "") = false :=
  ⟨isValidEmail_iff_matches, by decide, by decide, by decide, by decide⟩

/-- C8 (amended): for invalid email and non-empty password,
`validateLoginForm` returns invalid and writes no password error — the
password error slot is actively cleared to the empty string (so it is not
in general left untouched; see the counterexample). -/
theorem C8_login_email_invalid : ∀ (st : ErrorSlots) (c : Credentials),
    isValidEmail (jsToString c.email) = false → truthy c.password = true →
    (ScriptJS.validateLoginForm st c).2 = false ∧
    (ScriptJS.validateLoginForm st c).1.passwordError = [] ∧
    (ScriptJS.validateLoginForm st c).1.emailError =
      str "Please enter a valid email address" := by
  intro st c he hp
  have hlen : ¬ (jsToString c.password).length < 1 := by
    cases hc : c.password with
    | none => rw [hc] at hp; exact absurd hp (by decide)
    | some l =>
      rw [hc] at hp
      have hl : l ≠ [] := by
        intro hl; rw [hl] at hp; exact absurd hp (by decide)
      simp [jsToString]
      exact hl
  simp [ScriptJS.validateLoginForm, he, hp, hlen, showFieldError, clearFieldError,
    setSlot]

/-- C8 witness: the amended theorem applied to a concrete invalid email and
non-empty password. -/
theorem C8_login_email_invalid_witness :
    isValidEmail (jsToString (some (str "a@b"))) = false ∧
    truthy (some (str "x")) = true ∧
    (ScriptJS.validateLoginForm ⟨[], [], [], [], [], []⟩
      ⟨some (str "a@b"), some (str "x")⟩).2 = false ∧
    (ScriptJS.validateLoginForm ⟨[], [], [], [], [], []⟩
      ⟨some (str "a@b"), some (str "x")⟩).1.passwordError = [] :=
  ⟨by decide, by decide,
   (C8_login_email_invalid ⟨[], [], [], [], [], []⟩ ⟨some (str "a@b"), some (str "x")⟩
     (by decide) (by decide)).1,
   (C8_login_email_invalid ⟨[], [], [], [], [], []⟩ ⟨some (str "a@b"), some (str "x")⟩
     (by decide) (by decide)).2.1⟩

/-- C8 counterexample: the claim as stated says the password error slot is
left untouched; but starting from a state whose password slot still shows a
previous error, a submit with invalid email and valid password clears the
slot, changing its content. -/
theorem C8_login_email_invalid_cex :
    isValidEmail (jsToString (some (str "a@b"))) = false ∧
    truthy (some (str "x")) = true ∧
    (ScriptJS.validateLoginForm ⟨[], [], [], [], [], str "Password is required"⟩
        ⟨some (str "a@b"), some (str "x")⟩).1.passwordError ≠
      (⟨[], [], [], [], [], str "Password is required"⟩ : ErrorSlots).passwordError := by
  decide

/-- C9: the real-time `validatePasswordMatch` clears the mismatch slot
whenever the confirm field is empty, whatever the password field holds;
whereas the submit-time `validateRegisterForm` flags an empty
`confirmPassword` against a non-empty password as a mismatch. -/
theorem C9_confirm_empty_realtime : ∀ (st : ErrorSlots) (p : List Char),
    (ScriptJS.validatePasswordMatch st p []).confirmPasswordError = [] ∧
    (∀ u : UserData, u.password = some p → u.confirmPassword = some [] → p ≠ [] →
      (ScriptJS.validateRegisterForm st u).1.confirmPasswordError =
        str "Passwords do not match") := by
  intro st p
  constructor
  · simp [ScriptJS.validatePasswordMatch, clearFieldError, setSlot]
  · intro u hp hcf hne
    have hne2 : u.password ≠ u.confirmPassword := by
      rw [hp, hcf]
      simp [hne]
    simp [ScriptJS.validateRegisterForm, hne2, showFieldError, clearFieldError, setSlot]

/-- C9 witness: the theorem applied to a concrete non-empty password with
an empty confirm field, on both the real-time and the submit-time path. -/
theorem C9_confirm_empty_realtime_witness :
    (ScriptJS.validatePasswordMatch ⟨[], [], [], [], [], []⟩ (str "Password1")
      []).confirmPasswordError = [] ∧
    (ScriptJS.validateRegisterForm ⟨[], [], [], [], [], []⟩
      ⟨some (str "Jo"), some (str "a@b.co"), some (str "Password1"),
       some []⟩).1.confirmPasswordError = str "Passwords do not match" :=
  ⟨(C9_confirm_empty_realtime ⟨[], [], [], [], [], []⟩ (str "Password1")).1,
   (C9_confirm_empty_realtime ⟨[], [], [], [], [], []⟩ (str "Password1")).2
     ⟨some (str "Jo"), some (str "a@b.co"), some (str "Password1"), some []⟩
     rfl rfl (by decide)⟩

/-- C10: with the email field absent (`undefined`), `isValidEmail`'s
coerced test evaluates to false and `validateLoginForm` totally returns
invalid with the email error reported, for every password value and prior
slot state. -/
theorem C10_login_missing_email : ∀ (st : ErrorSlots) (p : Option (List Char)),
    isValidEmail (jsToString (none : Option (List Char))) = false ∧
    (ScriptJS.validateLoginForm st ⟨none, p⟩).2 = false ∧
    (ScriptJS.validateLoginForm st ⟨none, p⟩).1.emailError =
      str "Please enter a valid email address" := by
  intro st p
  have he : isValidEmail (jsToString (none : Option (List Char))) = false := by decide
  refine ⟨he, ?_, ?_⟩
  · cases hp : (!truthy p || decide ((jsToString p).length < 1) : Bool) <;>
      simp [ScriptJS.validateLoginForm, he, hp, showFieldError, clearFieldError, setSlot]
  · simp [ScriptJS.validateLoginForm, he, showFieldError, clearFieldError, setSlot]
    split <;> rfl
